import Mathlib

/-!
Verification of the Vimshottari Dasha period calculator in `src/app.py`
(KishoreGGK/vimshottari-stock-analyzer).

Shallow embedding conventions:
* Python floats are modelled as exact rationals (`ℚ`); Python `x // y` on
  floats followed by `int(...)` is `⌊x / y⌋ : ℤ`, Python float `x % y` for a
  positive modulus `y` is `x - y * ⌊x / y⌋`, and Python integer `%` with a
  positive modulus coincides with `Int.emod`.
* `swe.revjul(jd)[:3]` only converts a Julian-day instant to a calendar date
  for display; we expose the underlying Julian-day instant itself in each
  returned triple, preserving exactly the order in which the source passes
  the instants to `revjul` (in particular the swapped order on line 63).
* The source functions on lines 41-74 read only the immutable module-level
  constants `DASHA_YEARS` / `DASHA_NAMES`; they perform no I/O and touch no
  mutable state, so they embed as pure total functions.
-/

namespace Vimshottari

/-- Vimshottari Dasha lengths in years (Mahadasha), `src/app.py` lines 13-23:
Ketu 6, Venus 16, Sun 10, Moon 7, Mars 18, Rahu 17, Jupiter 19, Saturn 20,
Mercury 15. -/
def DASHA_YEARS : List ℕ := [6, 16, 10, 7, 18, 17, 19, 20, 15]

/-- Lord names, `src/app.py` line 25. -/
def DASHA_NAMES : List String :=
  ["Ketu", "Venus", "Sun", "Moon", "Mars", "Rahu", "Jupiter", "Saturn", "Mercury"]

/-- The Python expression `360/27` (width of one nakshatra in degrees). -/
def nakWidth : ℚ := 360 / 27

/-- Python float `x % y` for a positive modulus: `x - y * ⌊x / y⌋`. -/
def pymod (x y : ℚ) : ℚ := x - y * ⌊x / y⌋

/-- Line 43: `nakshatra = int(moon_longitude // (360/27))`. -/
def nakshatra (moon_longitude : ℚ) : ℤ := ⌊moon_longitude / nakWidth⌋

/-- Lines 41-47: `get_dasha_start_index(moon_longitude)` returns
`(7 - nakshatra) % 9` (Python `%` on integers with positive modulus, which
`Int.emod` matches).  The source performs no range validation on
`moon_longitude` and has no raise statement. -/
def get_dasha_start_index (moon_longitude : ℚ) : ℤ :=
  (7 - nakshatra moon_longitude) % 9

/-- Lines 49-53: `get_dasha_balance(moon_longitude)` returns
`1 - (moon_longitude % (360/27)) / (360/27)`. -/
def get_dasha_balance (moon_longitude : ℚ) : ℚ :=
  1 - pymod moon_longitude nakWidth / nakWidth

/-- One period as exposed by `build_dasha_periods`: the lord name and the two
Julian-day instants whose calendar dates the source places in the second and
third slot of the tuple (in that order). -/
abbrev Period := String × ℚ × ℚ

/-- Lines 55-74: `build_dasha_periods(start_index, balance, start_jd)`.

The first appended tuple (line 63) is
`(DASHA_NAMES[start_index], revjul(end_jd)[:3], revjul(current_jd)[:3])`
— the end instant in the second slot and the start instant in the third —
while each loop iteration (line 72) appends
`(DASHA_NAMES[idx], revjul(current_jd)[:3], revjul(end_jd)[:3])`.
We reproduce both orders literally; the loop `for i in range(1, 9)` is the
fold over `List.range' 1 8 = [1, ..., 8]`. -/
def build_dasha_periods (start_index : ℕ) (balance : ℚ) (start_jd : ℚ) :
    List Period :=
  let length_days : ℚ := (DASHA_YEARS.getD start_index 0 : ℚ) * balance * 365.25
  let end_jd := start_jd + length_days
  let first : Period := (DASHA_NAMES.getD start_index "", end_jd, start_jd)
  let step : List Period × ℚ → ℕ → List Period × ℚ := fun st i =>
    let idx := (start_index + i) % 9
    let e := st.2 + (DASHA_YEARS.getD idx 0 : ℚ) * 365.25
    (st.1 ++ [(DASHA_NAMES.getD idx "", st.2, e)], e)
  ((List.range' 1 8).foldl step ([first], end_jd)).1

/-- `range(1, 9)` enumerates `1, ..., 8`. -/
lemma range_one_eight : List.range' 1 8 = [1, 2, 3, 4, 5, 6, 7, 8] := rfl

/-- The fractional offset inside the current nakshatra, as a fraction of the
nakshatra width, is the fractional part of `x / (360/27)`. -/
lemma pymod_div_eq_fract (x : ℚ) :
    pymod x nakWidth / nakWidth = Int.fract (x / nakWidth) := by
  have hw : (nakWidth : ℚ) ≠ 0 := by norm_num [nakWidth]
  unfold pymod Int.fract
  field_simp

/-- `build_dasha_periods` always returns a list of length 9. -/
lemma build_dasha_periods_length (si : ℕ) (b jd : ℚ) :
    (build_dasha_periods si b jd).length = 9 := by
  simp [build_dasha_periods, range_one_eight]

/-- Claim C1 (code bug witnessed at start_index = 0, balance = 1, anchor
jd = 0): the first returned triple is `("Ketu", 4383/2, 0)` — the tuple built
on line 63 places the first period's END instant (anchor + 6 * 365.25 =
4383/2 days) in the start slot and the anchor instant in the end slot,
contradicting the line's own `# start, end dates` comment; consequently the
exposed start of the first period is not the anchor, and the second period's
exposed start (4383/2) does not equal the first period's exposed end (0). -/
theorem c1_first_period_start_end_swapped :
    (build_dasha_periods 0 1 0).getD 0 ("", 0, 0) = ("Ketu", 4383 / 2, 0) ∧
    ((build_dasha_periods 0 1 0).getD 1 ("", 0, 0)).2.1 = 4383 / 2 ∧
    ((build_dasha_periods 0 1 0).getD 0 ("", 0, 0)).2.1 ≠ 0 ∧
    ((build_dasha_periods 0 1 0).getD 1 ("", 0, 0)).2.1
      ≠ ((build_dasha_periods 0 1 0).getD 0 ("", 0, 0)).2.2 := by
  refine ⟨?_, ?_, ?_, ?_⟩ <;>
    norm_num [build_dasha_periods, range_one_eight, DASHA_YEARS, DASHA_NAMES]

/-- Claim C2 (code bug witnessed at longitude = 0.0): the nakshatra index is 0
and the balance is 1 as claimed, but `get_dasha_start_index` returns
`(7 - 0) % 9 = 7` (the lord `DASHA_NAMES[7] = "Saturn"`, 20 years), not the
claimed start_index 0 (the first lord in the sequence); so the first period's
duration is `20 * balance * 365.25` days, not `DASHA_YEARS[0] * 365.25`. -/
theorem c2_longitude_zero_yields_index_seven :
    nakshatra 0 = 0 ∧ get_dasha_balance 0 = 1 ∧
    get_dasha_start_index 0 = 7 ∧ get_dasha_start_index 0 ≠ 0 ∧
    DASHA_NAMES.getD 7 "" = "Saturn" ∧ DASHA_YEARS.getD 7 0 = 20 := by
  refine ⟨?_, ?_, ?_, ?_, rfl, rfl⟩ <;>
    norm_num [nakshatra, get_dasha_balance, get_dasha_start_index, pymod,
      nakWidth]

/-- Claim C3 (code bug): the year-length table `DASHA_YEARS` of the source
sums to 128, not the canonical Vimshottari total of 120; the rotation sums
starting from each of the nine possible start indices all equal 128 as well
(rotation does preserve the total, but that total is 128). -/
theorem c3_dasha_years_total_128_not_120 :
    DASHA_YEARS.sum = 128 ∧ DASHA_YEARS.sum ≠ 120 ∧
    ((List.range 9).all fun si =>
      ((List.range 9).map fun i => DASHA_YEARS.getD ((si + i) % 9) 0).sum
        == 128) = true := by
  decide

/-- Claim C4 counterexample: `get_dasha_start_index` does not reject
out-of-range longitudes — at longitude -1.0 it returns the ordinary start
index 8 and at longitude 360.0 an ordinary start index in [0, 9); no
exception of any kind is raised (the source has no raise statement and no
range check), refuting the claim that these inputs raise `DomainError`. -/
theorem c4_out_of_range_longitude_not_rejected :
    get_dasha_start_index (-1) = 8 ∧
    0 ≤ get_dasha_start_index 360 ∧ get_dasha_start_index 360 < 9 := by
  refine ⟨?_, ?_, ?_⟩ <;>
    norm_num [get_dasha_start_index, nakshatra, nakWidth]

/-- Claim C4 amended: the nakshatra-index computation performs no domain
validation and has no error path at all; every longitude — in particular
-1.0 and 360.0 — is accepted and mapped to an ordinary start index in
[0, 8], from which a full 9-period timeline is then constructed. -/
theorem c4_amended_no_error_path (lon b jd : ℚ) :
    0 ≤ get_dasha_start_index lon ∧ get_dasha_start_index lon < 9 ∧
    (build_dasha_periods (get_dasha_start_index lon).toNat b jd).length = 9 ∧
    get_dasha_start_index (-1) = 8 ∧
    0 ≤ get_dasha_start_index 360 ∧ get_dasha_start_index 360 < 9 := by
  refine ⟨?_, ?_, build_dasha_periods_length _ b jd, ?_, ?_, ?_⟩
  · unfold get_dasha_start_index
    exact Int.emod_nonneg _ (by norm_num)
  · unfold get_dasha_start_index
    exact Int.emod_lt_of_pos _ (by norm_num)
  · norm_num [get_dasha_start_index, nakshatra, nakWidth]
  · norm_num [get_dasha_start_index, nakshatra, nakWidth]
  · norm_num [get_dasha_start_index, nakshatra, nakWidth]

/-- Claim C5: for every longitude in [0, 360), `get_dasha_balance` equals
`1 - (longitude mod (360/27)) / (360/27)`, lies in (0, 1], and equals exactly
1 whenever the longitude sits precisely on a nakshatra boundary (i.e. its
residue modulo 360/27 vanishes). -/
theorem c5_balance_formula_range_and_boundary (lon : ℚ)
    (h0 : 0 ≤ lon) (h1 : lon < 360) :
    get_dasha_balance lon = 1 - pymod lon nakWidth / nakWidth ∧
    0 < get_dasha_balance lon ∧ get_dasha_balance lon ≤ 1 ∧
    (pymod lon nakWidth = 0 → get_dasha_balance lon = 1) := by
  refine ⟨rfl, ?_, ?_, ?_⟩
  · unfold get_dasha_balance
    rw [pymod_div_eq_fract]
    have := Int.fract_lt_one (lon / nakWidth)
    linarith
  · unfold get_dasha_balance
    rw [pymod_div_eq_fract]
    have := Int.fract_nonneg (lon / nakWidth)
    linarith
  · intro h
    unfold get_dasha_balance
    rw [h]
    norm_num

/-- Witness for C5 at the boundary longitude 360/27 = 40/3: the hypotheses
hold, the residue vanishes there, and the theorem yields balance = 1. -/
theorem c5_balance_witness :
    (0 ≤ (40 / 3 : ℚ) ∧ (40 / 3 : ℚ) < 360 ∧ pymod (40 / 3) nakWidth = 0) ∧
    (get_dasha_balance (40 / 3)
        = 1 - pymod (40 / 3) nakWidth / nakWidth ∧
      0 < get_dasha_balance (40 / 3) ∧ get_dasha_balance (40 / 3) ≤ 1 ∧
      (pymod (40 / 3) nakWidth = 0 → get_dasha_balance (40 / 3) = 1)) :=
  ⟨⟨by norm_num, by norm_num, by norm_num [pymod, nakWidth]⟩,
    c5_balance_formula_range_and_boundary (40 / 3) (by norm_num) (by norm_num)⟩

/-- Claim C6: for every start_index in [0, 8] and every i in 1..8, the
(i+1)-th returned period carries the lord `DASHA_NAMES[(start_index + i) % 9]`,
its end instant exceeds its start instant by exactly
`DASHA_YEARS[(start_index + i) % 9] * 365.25` days, and its start instant is
the end of the previous period: for i = 1 that end is
`start_jd + DASHA_YEARS[start_index] * balance * 365.25` (the true end of the
first, balance-scaled period), and for i ≥ 2 it is the end slot of the
previous returned triple. -/
theorem c6_subsequent_periods_lord_duration_contiguity
    (si : ℕ) (b jd : ℚ) (i : ℕ) (hsi : si < 9) (h1 : 1 ≤ i) (h8 : i ≤ 8) :
    ((build_dasha_periods si b jd).getD i ("", 0, 0)).1
        = DASHA_NAMES.getD ((si + i) % 9) "" ∧
    ((build_dasha_periods si b jd).getD i ("", 0, 0)).2.2
        = ((build_dasha_periods si b jd).getD i ("", 0, 0)).2.1
          + (DASHA_YEARS.getD ((si + i) % 9) 0 : ℚ) * 365.25 ∧
    ((build_dasha_periods si b jd).getD i ("", 0, 0)).2.1
        = (if i = 1 then jd + (DASHA_YEARS.getD si 0 : ℚ) * b * 365.25
           else ((build_dasha_periods si b jd).getD (i - 1) ("", 0, 0)).2.2) := by
  interval_cases i <;>
    refine ⟨?_, ?_, ?_⟩ <;>
      simp [build_dasha_periods, range_one_eight]

/-- Witness for C6 at start_index = 0, balance = 1, anchor jd = 0, i = 1. -/
theorem c6_subsequent_periods_witness :
    (0 < 9 ∧ 1 ≤ 1 ∧ 1 ≤ 8) ∧
    (((build_dasha_periods 0 1 0).getD 1 ("", 0, 0)).1
        = DASHA_NAMES.getD ((0 + 1) % 9) "" ∧
      ((build_dasha_periods 0 1 0).getD 1 ("", 0, 0)).2.2
        = ((build_dasha_periods 0 1 0).getD 1 ("", 0, 0)).2.1
          + (DASHA_YEARS.getD ((0 + 1) % 9) 0 : ℚ) * 365.25 ∧
      ((build_dasha_periods 0 1 0).getD 1 ("", 0, 0)).2.1
        = (if 1 = 1 then 0 + (DASHA_YEARS.getD 0 0 : ℚ) * 1 * 365.25
           else ((build_dasha_periods 0 1 0).getD (1 - 1) ("", 0, 0)).2.2)) :=
  ⟨⟨by norm_num, le_refl 1, by norm_num⟩,
    c6_subsequent_periods_lord_duration_contiguity 0 1 0 1
      (by norm_num) (le_refl 1) (by norm_num)⟩

/-- Claim C7: for every longitude in [0, 360), the nakshatra index computed on
line 43 equals `⌊longitude / (360/27)⌋` and is an integer in [0, 26]. -/
theorem c7_nakshatra_floor_and_range (lon : ℚ)
    (h0 : 0 ≤ lon) (h1 : lon < 360) :
    nakshatra lon = ⌊lon / (360 / 27 : ℚ)⌋ ∧
    0 ≤ nakshatra lon ∧ nakshatra lon ≤ 26 := by
  refine ⟨rfl, ?_, ?_⟩
  · exact Int.floor_nonneg.mpr (div_nonneg h0 (by norm_num [nakWidth]))
  · have hlt : lon / nakWidth < ((27 : ℤ) : ℚ) := by
      rw [div_lt_iff₀ (by norm_num [nakWidth] : (0 : ℚ) < nakWidth)]
      push_cast
      norm_num [nakWidth]
      linarith
    have := Int.floor_lt.mpr hlt
    unfold nakshatra
    omega

/-- Witness for C7 at longitude 100: nakshatra index ⌊100 / (40/3)⌋ = 7. -/
theorem c7_nakshatra_witness :
    (0 ≤ (100 : ℚ) ∧ (100 : ℚ) < 360 ∧ nakshatra 100 = 7) ∧
    (nakshatra 100 = ⌊(100 : ℚ) / (360 / 27 : ℚ)⌋ ∧
      0 ≤ nakshatra 100 ∧ nakshatra 100 ≤ 26) :=
  ⟨⟨by norm_num, by norm_num, by norm_num [nakshatra, nakWidth]⟩,
    c7_nakshatra_floor_and_range 100 (by norm_num) (by norm_num)⟩

/-- Claim C8: the pipeline is deterministic — the three functions are pure
(in the source they read only the immutable module constants, perform no I/O
and touch no mutable state), so equal inputs give equal outputs. -/
theorem c8_determinism_of_pipeline (lon lon' : ℚ) (si si' : ℕ)
    (b b' jd jd' : ℚ)
    (hlon : lon = lon') (hsi : si = si') (hb : b = b') (hjd : jd = jd') :
    get_dasha_start_index lon = get_dasha_start_index lon' ∧
    get_dasha_balance lon = get_dasha_balance lon' ∧
    build_dasha_periods si b jd = build_dasha_periods si' b' jd' := by
  subst hlon; subst hsi; subst hb; subst hjd
  exact ⟨rfl, rfl, rfl⟩

/-- Witness for C8 at longitude 0, start_index 0, balance 1, anchor 0. -/
theorem c8_determinism_witness :
    get_dasha_start_index 0 = get_dasha_start_index 0 ∧
    get_dasha_balance 0 = get_dasha_balance 0 ∧
    build_dasha_periods 0 1 0 = build_dasha_periods 0 1 0 :=
  c8_determinism_of_pipeline 0 0 0 0 1 1 0 0 rfl rfl rfl rfl

/-- Claim C9: for every start_index in [0, 8] and all balance and anchor
values, the 9 lord names in the output of `build_dasha_periods` form a
permutation of `DASHA_NAMES` (each of the 9 lords appears exactly once) and
are pairwise distinct. -/
theorem c9_lords_pairwise_distinct (si : ℕ) (b jd : ℚ) (hsi : si < 9) :
    ((build_dasha_periods si b jd).map Prod.fst).Perm DASHA_NAMES ∧
    ((build_dasha_periods si b jd).map Prod.fst).Nodup := by
  interval_cases si <;>
    constructor <;>
      simp [build_dasha_periods, range_one_eight, DASHA_NAMES] <;> decide

/-- Witness for C9 at start_index = 3, balance = 1/2, anchor jd = 100. -/
theorem c9_lords_witness :
    (3 < 9) ∧
    (((build_dasha_periods 3 (1 / 2) 100).map Prod.fst).Perm DASHA_NAMES ∧
      ((build_dasha_periods 3 (1 / 2) 100).map Prod.fst).Nodup) :=
  ⟨by norm_num, c9_lords_pairwise_distinct 3 (1 / 2) 100 (by norm_num)⟩

/-- Claim C10: for every longitude whatsoever (negative and ≥ 360 included),
`get_dasha_start_index` returns an integer in [0, 8] without any error, so
the accesses `DASHA_YEARS[start_index]`, `DASHA_NAMES[start_index]` and every
access at `(start_index + i) % 9` inside `build_dasha_periods` are in bounds,
and the pipeline always yields a full 9-period list. -/
theorem c10_start_index_in_range_and_accesses_in_bounds (lon b jd : ℚ) :
    0 ≤ get_dasha_start_index lon ∧ get_dasha_start_index lon < 9 ∧
    (get_dasha_start_index lon).toNat < DASHA_YEARS.length ∧
    (get_dasha_start_index lon).toNat < DASHA_NAMES.length ∧
    (∀ i : ℕ, ((get_dasha_start_index lon).toNat + i) % 9 < DASHA_YEARS.length ∧
      ((get_dasha_start_index lon).toNat + i) % 9 < DASHA_NAMES.length) ∧
    (build_dasha_periods (get_dasha_start_index lon).toNat b jd).length = 9 := by
  have h0 : 0 ≤ get_dasha_start_index lon := by
    unfold get_dasha_start_index
    exact Int.emod_nonneg _ (by norm_num)
  have h9 : get_dasha_start_index lon < 9 := by
    unfold get_dasha_start_index
    exact Int.emod_lt_of_pos _ (by norm_num)
  have hy : DASHA_YEARS.length = 9 := rfl
  have hn : DASHA_NAMES.length = 9 := rfl
  refine ⟨h0, h9, ?_, ?_, ?_, build_dasha_periods_length _ b jd⟩
  · rw [hy]; omega
  · rw [hn]; omega
  · intro i
    rw [hy, hn]
    exact ⟨Nat.mod_lt _ (by norm_num), Nat.mod_lt _ (by norm_num)⟩

end Vimshottari
